import Mathlib

/-!
Shallow embedding of `pkg/apiserver/controller/pipeline/pipeline.go`
(PaddleFlow pipeline controller).

External collaborators (the relational store `storage.Pipeline`, the
filesystem helpers, the workflow validator, `models.ListSchedule`, and
the root-user check) are modelled as an environment record of pure
functions; store mutations performed by an operation are recorded in an
explicit effect list so that "nothing was persisted / deleted" is a
statable property.  The pagination-marker codec `common.EncryptPk` /
`common.DecryptPk` is not part of the visible source and is modelled
from the spec.
-/

namespace PaddleFlow

/-- Error codes written into the request context (`ctx.ErrorCode`),
mirroring the `common` error-code strings used by the controller. -/
inductive ErrorCode where
  | noError
  | internalError
  | invalidArguments
  | malformedYaml
  | duplicatedName
  | accessDenied
  | invalidMarker
  | actionNotAllowed
deriving DecidableEq, Repr, Inhabited

/-- A store lookup error: `gorm.ErrRecordNotFound` versus any other
database failure (the two are distinguished with `errors.Is`). -/
inductive StoreErr where
  | notFound
  | otherErr
deriving DecidableEq, Repr, Inhabited

/-- Failure of the transactional store create: the uniqueness constraint
on (owner, name) firing, versus any other failure. -/
inductive StoreCreateErr where
  | uniquenessViolation
  | otherErr
deriving DecidableEq, Repr, Inhabited

/-- `logger.RequestContext`: caller identity plus the mutable
`ErrorCode` side channel. -/
structure RequestContext where
  userName : String
  errorCode : ErrorCode
deriving DecidableEq, Repr, Inhabited

/-- `model.Pipeline`: the definition entity.  `pk` is the monotonic
store-assigned row key; time stamps are kept as already-formatted
strings since their formatting is external. -/
structure Pipeline where
  pk : Int := 0
  id : String := ""
  name : String := ""
  desc : String := ""
  userName : String := ""
  createTime : String := ""
  updateTime : String := ""
deriving DecidableEq, Repr, Inhabited

/-- `model.PipelineVersion`: one immutable version row. -/
structure PipelineVersion where
  pk : Int := 0
  id : String := ""
  pipelineID : String := ""
  fsID : String := ""
  fsName : String := ""
  yamlPath : String := ""
  pipelineYaml : String := ""
  pipelineMd5 : String := ""
  userName : String := ""
  createTime : String := ""
  updateTime : String := ""
deriving DecidableEq, Repr, Inhabited

/-- A schedule row as returned by `models.ListSchedule`; only its
presence matters to the controller. -/
structure Schedule where
  pipelineID : String := ""
  pipelineVersionID : String := ""
  status : String := ""
deriving DecidableEq, Repr, Inhabited

/-- A store mutation performed by an operation. -/
inductive StoreEffect where
  | createPipeline (ppl : Pipeline) (version : PipelineVersion)
  | updatePipeline (ppl : Pipeline) (version : PipelineVersion)
  | deletePipeline (pipelineID : String)
  | deletePipelineVersion (pipelineID : String) (pipelineVersionID : String)
deriving DecidableEq, Repr

/-- The external collaborators consumed by the controller, as pure
functions: `storage.Pipeline` queries, the schedule store, filesystem
helpers, base64, md5 and the workflow validator.  Mutating store calls
return the ids the store back-fills; their actual write is recorded by
the caller in its effect list. -/
structure Env where
  isRootUser : String → Bool
  base64Decode : String → Except Unit String
  checkFsAndGetID : String → String → String → Except Unit String
  readFileFromFs : String → String → Except Unit String
  validateWorkflow : String → String → String → Except Unit String
  md5 : String → String
  getPipeline : String → String → Except StoreErr Pipeline
  getPipelineByID : String → Except StoreErr Pipeline
  getPipelineVersion : String → String → Except StoreErr PipelineVersion
  storeCreatePipeline : Pipeline → PipelineVersion → Except StoreCreateErr (String × String)
  storeUpdatePipeline : Pipeline → PipelineVersion → Except Unit (String × String)
  listPipeline : Int → Int → List String → List String → Except Unit (List Pipeline)
  isLastPipelinePk : Int → List String → List String → Except Unit Bool
  listPipelineVersion : String → Int → Int → List String → Except Unit (List PipelineVersion)
  isLastPipelineVersionPk : String → Int → List String → Except Unit Bool
  countPipelineVersion : String → Except Unit Int
  storeDeletePipeline : String → Except Unit Unit
  storeDeletePipelineVersion : String → String → Except Unit Unit
  listSchedule : List String → List String → Except Unit (List Schedule)

/-- Modelled from the spec: `common.EncryptPk` — a reversible,
deterministic transform from a signed 64-bit row key to an opaque
token ("any scheme that round-trips exactly and rejects malformed
input is acceptable").  The token is a sign symbol followed by a
canonical run of magnitude symbols. -/
def encryptPk (pk : Int) : List Nat :=
  (if pk < 0 then 1 else 0) :: List.replicate pk.natAbs 2

/-- Modelled from the spec: `common.DecryptPk` — inverse of
`encryptPk`; any token outside its image fails (`InvalidMarker`). -/
def decryptPk (marker : List Nat) : Except Unit Int :=
  match marker with
  | [] => .error ()
  | sign :: ds =>
    if ds.all (fun d => d = 2) then
      if sign = 0 then .ok (Int.ofNat ds.length)
      else if sign = 1 ∧ ds ≠ [] then .ok (-(Int.ofNat ds.length))
      else .error ()
    else .error ()

/-- Marker handling shared by the listing operations: an empty marker
is never decoded and means row-key position zero (`var pk int64`
keeping its zero value); a non-empty marker is decoded. -/
def decodeMarker (marker : List Nat) : Except Unit Int :=
  if marker = [] then .ok 0 else decryptPk marker

/-- `CreatePipelineRequest` (also `UpdatePipelineRequest`). -/
structure CreatePipelineRequest where
  fsName : String := ""
  yamlPath : String := ""
  yamlRaw : String := ""
  userName : String := ""
  desc : String := ""
deriving DecidableEq, Repr, Inhabited

structure CreatePipelineResponse where
  pipelineID : String := ""
  pipelineVersionID : String := ""
  name : String := ""
deriving DecidableEq, Repr, Inhabited

structure UpdatePipelineResponse where
  pipelineID : String := ""
  pipelineVersionID : String := ""
deriving DecidableEq, Repr, Inhabited

/-- `common.MarkerInfo` fields used by the responses. -/
structure MarkerInfo where
  maxKeys : Int := 0
  isTruncated : Bool := false
  nextMarker : List Nat := []
deriving DecidableEq, Repr, Inhabited

structure PipelineBrief where
  id : String := ""
  name : String := ""
  desc : String := ""
  userName : String := ""
  createTime : String := ""
  updateTime : String := ""
deriving DecidableEq, Repr, Inhabited

structure PipelineVersionBrief where
  id : String := ""
  pipelineID : String := ""
  fsName : String := ""
  yamlPath : String := ""
  pipelineYaml : String := ""
  userName : String := ""
  createTime : String := ""
  updateTime : String := ""
deriving DecidableEq, Repr, Inhabited

/-- `(pb *PipelineBrief).updateFromPipelineModel`. -/
def PipelineBrief.ofModel (ppl : Pipeline) : PipelineBrief :=
  { id := ppl.id, name := ppl.name, desc := ppl.desc, userName := ppl.userName,
    createTime := ppl.createTime, updateTime := ppl.updateTime }

/-- `(pdb *PipelineVersionBrief).updateFromPipelineVersionModel`. -/
def PipelineVersionBrief.ofModel (v : PipelineVersion) : PipelineVersionBrief :=
  { id := v.id, pipelineID := v.pipelineID, fsName := v.fsName, yamlPath := v.yamlPath,
    pipelineYaml := v.pipelineYaml, userName := v.userName,
    createTime := v.createTime, updateTime := v.updateTime }

structure ListPipelineResponse where
  markerInfo : MarkerInfo := {}
  pipelineList : List PipelineBrief := []
deriving DecidableEq, Repr, Inhabited

structure PipelineVersions where
  markerInfo : MarkerInfo := {}
  pipelineVersionList : List PipelineVersionBrief := []
deriving DecidableEq, Repr, Inhabited

structure GetPipelineResponse where
  pipeline : PipelineBrief := {}
  pipelineVersions : PipelineVersions := {}
deriving DecidableEq, Repr, Inhabited

structure GetPipelineVersionResponse where
  pipeline : PipelineBrief := {}
  pipelineVersion : PipelineVersionBrief := {}
deriving DecidableEq, Repr, Inhabited

/-- Result of a controller operation: the request context as mutated
(error-code side channel), the Go return value, the Go `error`, and the
store mutations performed. -/
structure OpResult (ρ : Type) where
  ctx : RequestContext
  resp : ρ
  err : Option String
  effects : List StoreEffect := []
deriving DecidableEq, Repr

/-- `util.MaxDescLength`. -/
def maxDescLength : Nat := 1024

/-- `getPipelineYamlFromYamlRaw`: base64-decode the inline payload. -/
def getPipelineYamlFromYamlRaw (env : Env) (request : CreatePipelineRequest) :
    Except String (String × CreatePipelineRequest) :=
  match env.base64Decode request.yamlRaw with
  | .error _ => .error "Decode raw yaml failed"
  | .ok pipelineYaml => .ok (pipelineYaml, request)

/-- `getPipelineYamlFromYamlPath`: default the path to `./run.yaml`,
require a filesystem name, resolve it and read the file.  The Go code
mutates `request.YamlPath` through the pointer; here the updated
request is returned alongside the bytes. -/
def getPipelineYamlFromYamlPath (env : Env) (ctx : RequestContext)
    (request : CreatePipelineRequest) :
    Except String (String × CreatePipelineRequest) :=
  let request := if request.yamlPath = "" then { request with yamlPath := "./run.yaml" } else request
  if request.fsName = "" then
    .error "cannot get pipeline: fsname shall not be empty while you specified YamlPath"
  else
    match env.checkFsAndGetID ctx.userName request.userName request.fsName with
    | .error _ => .error "CheckFsAndGetID failed"
    | .ok fsID =>
      match env.readFileFromFs fsID request.yamlPath with
      | .error _ => .error "readFileFromFs failed"
      | .ok pipelineYaml => .ok (pipelineYaml, request)

/-- `getPipelineYaml`: source exclusivity, then dispatch to the inline
or filesystem branch. -/
def getPipelineYaml (env : Env) (ctx : RequestContext)
    (request : CreatePipelineRequest) :
    Except String (String × CreatePipelineRequest) :=
  if request.yamlRaw ≠ "" then
    if request.yamlPath ≠ "" then
      .error "you can only specify one of YamlPath and YamlRaw"
    else if request.fsName ≠ "" then
      .error "you cannot specify FsName while you specified YamlRaw"
    else
      getPipelineYamlFromYamlRaw env request
  else
    getPipelineYamlFromYamlPath env ctx request

/-- `CheckPipelinePermission`: `(hasAuth, pipeline, error)`.  Note the
not-found store error is folded into a plain error message. -/
def CheckPipelinePermission (env : Env) (userName : String) (pipelineID : String) :
    Bool × Pipeline × Option String :=
  match env.getPipelineByID pipelineID with
  | .error .notFound => (false, {}, some "pipeline not exist")
  | .error .otherErr => (false, {}, some "get pipeline failed")
  | .ok ppl =>
    if ¬env.isRootUser userName ∧ userName ≠ ppl.userName then
      (false, {}, none)
    else
      (true, ppl, none)

/-- `CheckPipelineVersionPermission`: `(hasAuth, pipeline, version, error)`. -/
def CheckPipelineVersionPermission (env : Env) (userName : String)
    (pipelineID : String) (pipelineVersionID : String) :
    Bool × Pipeline × PipelineVersion × Option String :=
  match CheckPipelinePermission env userName pipelineID with
  | (_, _, some e) => (false, {}, {}, some e)
  | (false, _, none) => (false, {}, {}, none)
  | (true, ppl, none) =>
    match env.getPipelineVersion pipelineID pipelineVersionID with
    | .error .notFound => (false, {}, {}, some "pipeline version not exist")
    | .error .otherErr => (false, {}, {}, some "get pipeline version failed")
    | .ok pipelineVersion => (true, ppl, pipelineVersion, none)

/-- Tail of `CreatePipeline` once the duplicate-name check has passed:
build the definition row and the first version row (resolving the
filesystem id when a filesystem name is present — note that on a
resolution failure the Go code only sets the error code and keeps
going) and perform the transactional store create. -/
def createPipelinePersist (env : Env) (ctx : RequestContext)
    (request : CreatePipelineRequest) (pipelineYaml : String) (pplName : String) :
    OpResult CreatePipelineResponse :=
  let ppl : Pipeline :=
    { id := "", name := pplName, desc := request.desc, userName := ctx.userName }
  let yamlMd5 := env.md5 pipelineYaml
  let (ctx, fsID) :=
    if request.fsName ≠ "" then
      match env.checkFsAndGetID ctx.userName request.userName request.fsName with
      | .error _ => ({ ctx with errorCode := .invalidArguments }, "")
      | .ok fsID => (ctx, fsID)
    else (ctx, "")
  let pplVersion : PipelineVersion :=
    { fsID := fsID, fsName := request.fsName, yamlPath := request.yamlPath,
      pipelineYaml := pipelineYaml, pipelineMd5 := yamlMd5,
      userName := ctx.userName }
  match env.storeCreatePipeline ppl pplVersion with
  | .error _ =>
    { ctx := { ctx with errorCode := .internalError }, resp := {},
      err := some "create pipeline failed inserting db" }
  | .ok (pplID, pplVersionID) =>
    { ctx := ctx,
      resp := { pipelineID := pplID, pipelineVersionID := pplVersionID,
                name := pplName },
      err := none,
      effects := [.createPipeline ppl pplVersion] }

/-- `CreatePipeline`. -/
def CreatePipeline (env : Env) (ctx : RequestContext) (request : CreatePipelineRequest) :
    OpResult CreatePipelineResponse :=
  if request.desc.length > maxDescLength then
    { ctx := { ctx with errorCode := .invalidArguments }, resp := {},
      err := some "desc too long" }
  else
    match getPipelineYaml env ctx request with
    | .error e =>
      { ctx := { ctx with errorCode := .invalidArguments }, resp := {},
        err := some ("create pipeline failed. err:" ++ e) }
    | .ok (pipelineYaml, request) =>
      match env.validateWorkflow pipelineYaml ctx.userName request.userName with
      | .error _ =>
        { ctx := { ctx with errorCode := .malformedYaml }, resp := {},
          err := some "validateWorkflowForPipeline failed" }
      | .ok pplName =>
        match env.getPipeline pplName ctx.userName with
        | .ok _ =>
          { ctx := { ctx with errorCode := .duplicatedName }, resp := {},
            err := some "already has pipeline, cannot create again, use update instead" }
        | .error storeErr =>
          if storeErr ≠ .notFound then
            { ctx := { ctx with errorCode := .internalError }, resp := {},
              err := some "CreatePipeline failed" }
          else
            createPipelinePersist env ctx request pipelineYaml pplName

/-- Tail of `UpdatePipeline` once authorization and the name-equality
check have passed: refresh the description, build the new version row
(resolving the filesystem id when a filesystem name is present — the Go
code again keeps going on a resolution failure) and perform the
transactional store update. -/
def updatePipelinePersist (env : Env) (ctx : RequestContext)
    (request : CreatePipelineRequest) (pipelineID : String) (pipelineYaml : String)
    (ppl : Pipeline) : OpResult UpdatePipelineResponse :=
  let ppl := { ppl with desc := request.desc }
  let yamlMd5 := env.md5 pipelineYaml
  let (ctx, fsID) :=
    if request.fsName ≠ "" then
      match env.checkFsAndGetID ctx.userName request.userName request.fsName with
      | .error _ => ({ ctx with errorCode := .internalError }, "")
      | .ok fsID => (ctx, fsID)
    else (ctx, "")
  let pplVersion : PipelineVersion :=
    { pipelineID := pipelineID, fsID := fsID, fsName := request.fsName,
      yamlPath := request.yamlPath, pipelineYaml := pipelineYaml,
      pipelineMd5 := yamlMd5, userName := ctx.userName }
  match env.storeUpdatePipeline ppl pplVersion with
  | .error _ =>
    { ctx := { ctx with errorCode := .internalError }, resp := {},
      err := some "update pipeline failed inserting db" }
  | .ok (pplID, pplVersionID) =>
    { ctx := ctx,
      resp := { pipelineID := pplID, pipelineVersionID := pplVersionID },
      err := none,
      effects := [.updatePipeline ppl pplVersion] }

/-- `UpdatePipeline`. -/
def UpdatePipeline (env : Env) (ctx : RequestContext) (request : CreatePipelineRequest)
    (pipelineID : String) : OpResult UpdatePipelineResponse :=
  if request.desc.length > maxDescLength then
    { ctx := { ctx with errorCode := .invalidArguments }, resp := {},
      err := some "desc too long" }
  else
    match getPipelineYaml env ctx request with
    | .error e =>
      { ctx := { ctx with errorCode := .invalidArguments }, resp := {},
        err := some ("update pipeline failed. err:" ++ e) }
    | .ok (pipelineYaml, request) =>
      match env.validateWorkflow pipelineYaml ctx.userName request.userName with
      | .error _ =>
        { ctx := { ctx with errorCode := .malformedYaml }, resp := {},
          err := some "validateWorkflowForPipeline failed" }
      | .ok pplName =>
        match CheckPipelinePermission env ctx.userName pipelineID with
        | (_, _, some _) =>
          { ctx := { ctx with errorCode := .invalidArguments }, resp := {},
            err := some "update pipeline failed" }
        | (hasAuth, ppl, none) =>
          if ¬hasAuth then
            { ctx := { ctx with errorCode := .accessDenied }, resp := {},
              err := some "update pipeline failed. Access denied" }
          else if ppl.name ≠ pplName then
            { ctx := { ctx with errorCode := .invalidArguments }, resp := {},
              err := some "update pipeline failed, pplname in yaml not the same" }
          else
            updatePipelinePersist env ctx request pipelineID pipelineYaml ppl

/-- Body of `ListPipeline` after the marker has been decoded to a row
key: owner-filter handling, page fetch, exact truncation detection and
response shaping. -/
def listPipelineWithPk (env : Env) (ctx : RequestContext) (pk : Int) (maxKeys : Int)
    (userFilter nameFilter : List String) : OpResult ListPipelineResponse :=
  if ¬env.isRootUser ctx.userName ∧ userFilter ≠ [] then
    { ctx := { ctx with errorCode := .invalidArguments }, resp := {},
      err := some "only root user can set userFilter!" }
  else
    let userFilter := if env.isRootUser ctx.userName then userFilter else [ctx.userName]
    match env.listPipeline pk maxKeys userFilter nameFilter with
    | .error _ =>
      { ctx := { ctx with errorCode := .internalError }, resp := {},
        err := some "ListPipeline failed" }
    | .ok pipelineList =>
      if pipelineList = [] then
        { ctx := ctx,
          resp := { markerInfo := { maxKeys := maxKeys, isTruncated := false, nextMarker := [] },
                    pipelineList := pipelineList.map PipelineBrief.ofModel },
          err := none }
      else
        let ppl := pipelineList.getLastD {}
        match env.isLastPipelinePk ppl.pk userFilter nameFilter with
        | .error _ =>
          { ctx := { ctx with errorCode := .internalError }, resp := {},
            err := some "get last pipeline Pk failed" }
        | .ok isLastPk =>
          let info : MarkerInfo :=
            if ¬isLastPk then
              { maxKeys := maxKeys, isTruncated := true, nextMarker := encryptPk ppl.pk }
            else
              { maxKeys := maxKeys, isTruncated := false, nextMarker := [] }
          { ctx := ctx,
            resp := { markerInfo := info,
                      pipelineList := pipelineList.map PipelineBrief.ofModel },
            err := none }

/-- `ListPipeline`: decode the marker (empty marker = row key 0), then
run the listing body. -/
def ListPipeline (env : Env) (ctx : RequestContext) (marker : List Nat) (maxKeys : Int)
    (userFilter nameFilter : List String) : OpResult ListPipelineResponse :=
  match decodeMarker marker with
  | .error _ =>
    { ctx := { ctx with errorCode := .invalidMarker }, resp := {},
      err := some "DecryptPk marker failed" }
  | .ok pk => listPipelineWithPk env ctx pk maxKeys userFilter nameFilter

/-- Version page of `GetPipeline` after the marker has been decoded:
fetch, exact truncation detection, response shaping.  Returns the
pipeline brief already built from the found definition. -/
def getPipelineVersionsPage (env : Env) (ctx : RequestContext) (ppl : Pipeline)
    (pipelineID : String) (pk : Int) (maxKeys : Int) (fsFilter : List String) :
    OpResult GetPipelineResponse :=
  match env.listPipelineVersion pipelineID pk maxKeys fsFilter with
  | .error _ =>
    { ctx := { ctx with errorCode := .internalError }, resp := {},
      err := some "get Pipeline version failed" }
  | .ok pipelineVersionList =>
    if pipelineVersionList = [] then
      { ctx := ctx,
        resp := { pipeline := PipelineBrief.ofModel ppl,
                  pipelineVersions :=
                    { markerInfo := { maxKeys := maxKeys, isTruncated := false, nextMarker := [] },
                      pipelineVersionList :=
                        pipelineVersionList.map PipelineVersionBrief.ofModel } },
        err := none }
    else
      let pplVersion := pipelineVersionList.getLastD {}
      match env.isLastPipelineVersionPk pipelineID pplVersion.pk fsFilter with
      | .error _ =>
        { ctx := { ctx with errorCode := .internalError }, resp := {},
          err := some "get last pplversion failed" }
      | .ok isLastPPlVersionPk =>
        let info : MarkerInfo :=
          if ¬isLastPPlVersionPk then
            { maxKeys := maxKeys, isTruncated := true, nextMarker := encryptPk pplVersion.pk }
          else
            { maxKeys := maxKeys, isTruncated := false, nextMarker := [] }
        { ctx := ctx,
          resp := { pipeline := PipelineBrief.ofModel ppl,
                    pipelineVersions :=
                      { markerInfo := info,
                        pipelineVersionList :=
                          pipelineVersionList.map PipelineVersionBrief.ofModel } },
          err := none }

/-- `GetPipeline`: look up the definition by id (not-found becomes
`InvalidArguments`), authorize, then page its versions. -/
def GetPipeline (env : Env) (ctx : RequestContext) (pipelineID : String)
    (marker : List Nat) (maxKeys : Int) (fsFilter : List String) :
    OpResult GetPipelineResponse :=
  match env.getPipelineByID pipelineID with
  | .error storeErr =>
    let code : ErrorCode :=
      if storeErr = .notFound then .invalidArguments else .internalError
    { ctx := { ctx with errorCode := code }, resp := {},
      err := some "get pipeline failed" }
  | .ok ppl =>
    if ¬env.isRootUser ctx.userName ∧ ctx.userName ≠ ppl.userName then
      { ctx := { ctx with errorCode := .accessDenied }, resp := {},
        err := some "no access" }
    else
      match decodeMarker marker with
      | .error _ =>
        { ctx := { ctx with errorCode := .invalidMarker }, resp := {},
          err := some "DecryptPk marker failed" }
      | .ok pk => getPipelineVersionsPage env ctx ppl pipelineID pk maxKeys fsFilter

/-- `GetPipelineVersion`: permission check (which also performs the
lookups), then shape the response.  Any error from the check is mapped
to `InternalError`. -/
def GetPipelineVersion (env : Env) (ctx : RequestContext) (pipelineID : String)
    (pipelineVersionID : String) : OpResult GetPipelineVersionResponse :=
  match CheckPipelineVersionPermission env ctx.userName pipelineID pipelineVersionID with
  | (_, _, _, some _) =>
    { ctx := { ctx with errorCode := .internalError }, resp := {},
      err := some "get pipeline version failed" }
  | (hasAuth, ppl, pplVersion, none) =>
    if ¬hasAuth then
      { ctx := { ctx with errorCode := .accessDenied }, resp := {},
        err := some "get pipeline version failed. Access denied" }
    else
      { ctx := ctx,
        resp := { pipeline := PipelineBrief.ofModel ppl,
                  pipelineVersion := PipelineVersionBrief.ofModel pplVersion },
        err := none }

/-- `DeletePipeline`: permission check (errors map to `InternalError`),
schedule guard, then the cascading store delete. -/
def DeletePipeline (env : Env) (ctx : RequestContext) (pipelineID : String) :
    OpResult Unit :=
  match CheckPipelinePermission env ctx.userName pipelineID with
  | (_, _, some _) =>
    { ctx := { ctx with errorCode := .internalError }, resp := (),
      err := some "delete pipeline failed" }
  | (hasAuth, _, none) =>
    if ¬hasAuth then
      { ctx := { ctx with errorCode := .accessDenied }, resp := (),
        err := some "delete pipeline failed. Access denied" }
    else
      match env.listSchedule [pipelineID] [] with
      | .error _ =>
        { ctx := { ctx with errorCode := .internalError }, resp := (),
          err := some "models list schedule failed" }
      | .ok scheduleList =>
        if scheduleList.length > 0 then
          { ctx := { ctx with errorCode := .actionNotAllowed }, resp := (),
            err := some "delete pipeline failed, there are running schedules, pls stop first" }
        else
          match env.storeDeletePipeline pipelineID with
          | .error _ =>
            { ctx := { ctx with errorCode := .internalError }, resp := (),
              err := some "models delete pipeline failed" }
          | .ok _ =>
            { ctx := ctx, resp := (), err := none,
              effects := [.deletePipeline pipelineID] }

/-- `DeletePipelineVersion`: permission check (errors map to
`InternalError`), last-version guard, schedule guard, store delete. -/
def DeletePipelineVersion (env : Env) (ctx : RequestContext) (pipelineID : String)
    (pipelineVersionID : String) : OpResult Unit :=
  match CheckPipelineVersionPermission env ctx.userName pipelineID pipelineVersionID with
  | (_, _, _, some _) =>
    { ctx := { ctx with errorCode := .internalError }, resp := (),
      err := some "delete pipeline version failed" }
  | (hasAuth, _, _, none) =>
    if ¬hasAuth then
      { ctx := { ctx with errorCode := .accessDenied }, resp := (),
        err := some "delete pipeline version failed. Access denied" }
    else
      match env.countPipelineVersion pipelineID with
      | .error _ =>
        { ctx := { ctx with errorCode := .internalError }, resp := (),
          err := some "delete pipeline version failed" }
      | .ok count =>
        if count = 1 then
          { ctx := { ctx with errorCode := .actionNotAllowed }, resp := (),
            err := some "only one pipeline version left, pls delete pipeline instead" }
        else
          match env.listSchedule [pipelineID] [pipelineVersionID] with
          | .error _ =>
            { ctx := { ctx with errorCode := .internalError }, resp := (),
              err := some "models list schedule failed" }
          | .ok scheduleList =>
            if scheduleList.length > 0 then
              { ctx := { ctx with errorCode := .actionNotAllowed }, resp := (),
                err := some "there are running schedules, pls stop first" }
            else
              match env.storeDeletePipelineVersion pipelineID pipelineVersionID with
              | .error _ =>
                { ctx := { ctx with errorCode := .internalError }, resp := (),
                  err := some "delete pipeline version failed" }
              | .ok _ =>
                { ctx := ctx, resp := (), err := none,
                  effects := [.deletePipelineVersion pipelineID pipelineVersionID] }

/-! Concrete environments and inputs used to instantiate the theorems. -/

/-- A sample stored definition. -/
def pplA : Pipeline :=
  { pk := 7, id := "ppl-000001", name := "demo", desc := "", userName := "alice" }

/-- A sample stored version row. -/
def verA : PipelineVersion :=
  { pk := 3, id := "1", pipelineID := "ppl-000001", userName := "alice" }

/-- A benign environment: every collaborator succeeds on small data;
the duplicate-name lookup reports not-found. -/
def envA : Env :=
  { isRootUser := fun u => u = "root"
    base64Decode := fun s => .ok s
    checkFsAndGetID := fun _ _ fsName => .ok ("fs-" ++ fsName)
    readFileFromFs := fun _ _ => .ok "name: demo"
    validateWorkflow := fun _ _ _ => .ok "demo"
    md5 := fun s => s
    getPipeline := fun _ _ => .error .notFound
    getPipelineByID := fun _ => .ok pplA
    getPipelineVersion := fun _ _ => .ok verA
    storeCreatePipeline := fun _ _ => .ok ("ppl-000001", "1")
    storeUpdatePipeline := fun _ _ => .ok ("ppl-000001", "2")
    listPipeline := fun _ _ _ _ => .ok [pplA]
    isLastPipelinePk := fun _ _ _ => .ok true
    listPipelineVersion := fun _ _ _ _ => .ok [verA]
    isLastPipelineVersionPk := fun _ _ _ => .ok true
    countPipelineVersion := fun _ => .ok 2
    storeDeletePipeline := fun _ => .ok ()
    storeDeletePipelineVersion := fun _ _ => .ok ()
    listSchedule := fun _ _ => .ok [] }

/-- The owning caller's request context. -/
def ctxAlice : RequestContext := { userName := "alice", errorCode := .noError }

/-- An inline-payload create request. -/
def reqInline : CreatePipelineRequest := { yamlRaw := "name_demo" }

/-- Environment in which the transactional store create loses the
(owner, name) uniqueness race. -/
def envDupRace : Env :=
  { envA with storeCreatePipeline := fun _ _ => .error .uniquenessViolation }

/-- Environment in which the definition id does not exist. -/
def envNoPpl : Env :=
  { envA with getPipelineByID := fun _ => .error .notFound }

/-- An active (non-final) schedule referencing `pplA` and `verA`. -/
def schedA : Schedule :=
  { pipelineID := "ppl-000001", pipelineVersionID := "1", status := "running" }

/-- Environment in which an active (non-final) schedule references the
definition and its version. -/
def envSched : Env :=
  { envA with listSchedule := fun _ _ => .ok [schedA] }

/-- Environment in which the definition has exactly one version. -/
def envOneVer : Env :=
  { envA with countPipelineVersion := fun _ => .ok 1 }

/-- Environment in which the named filesystem cannot be resolved. -/
def envNoFs : Env :=
  { envA with checkFsAndGetID := fun _ _ _ => .error () }

/-- Environment in which another page of matching rows remains after
the returned page (the last returned key is not the last matching
key). -/
def envMore : Env :=
  { envA with isLastPipelinePk := fun _ _ _ => .ok false
              isLastPipelineVersionPk := fun _ _ _ => .ok false }

/-! Theorems. -/

/-- Helper: decoding inverts encoding. -/
theorem decryptPk_encryptPk (k : Int) : decryptPk (encryptPk k) = .ok k := by
  have hall : ((List.replicate k.natAbs 2).all fun d => decide (d = 2)) = true := by
    simp only [List.all_eq_true, decide_eq_true_eq]
    intro x hx
    exact List.eq_of_mem_replicate hx
  by_cases hk : k < 0
  · have h0 : k.natAbs ≠ 0 := by omega
    have hne : List.replicate k.natAbs 2 ≠ [] := by
      intro hc
      have hlen := congrArg List.length hc
      simp only [List.length_replicate, List.length_nil] at hlen
      exact h0 hlen
    simp only [encryptPk, if_pos hk, decryptPk, hall, if_true]
    rw [if_neg (by decide), if_pos ⟨trivial, hne⟩]
    simp only [List.length_replicate, Except.ok.injEq, Int.ofNat_eq_coe]
    omega
  · simp only [encryptPk, if_neg hk, decryptPk, hall, if_true]
    simp only [List.length_replicate, Except.ok.injEq, Int.ofNat_eq_coe]
    omega

/-- Helper: decoding accepts only exact encodings (canonicality). -/
theorem decryptPk_ok_imp (s : List Nat) (k : Int) (h : decryptPk s = .ok k) :
    s = encryptPk k := by
  match s with
  | [] => simp [decryptPk] at h
  | sign :: ds =>
    simp only [decryptPk] at h
    split at h
    · rename_i hall
      simp only [List.all_eq_true, decide_eq_true_eq] at hall
      have hds : ds = List.replicate ds.length 2 := List.eq_replicate_of_mem hall
      split at h
      · rename_i h0
        simp only [Int.ofNat_eq_coe] at h
        injection h with h
        subst h0
        rw [← h]
        unfold encryptPk
        rw [if_neg (by omega : ¬((ds.length : Int)) < 0)]
        have hna : ((ds.length : Int)).natAbs = ds.length := by omega
        rw [hna]
        exact congrArg _ hds
      · rename_i h0
        split at h
        · rename_i h1
          simp only [Int.ofNat_eq_coe] at h
          injection h with h
          have hlen : ds.length ≠ 0 := fun hc => h1.2 (List.length_eq_zero.mp hc)
          rw [← h]
          unfold encryptPk
          rw [if_pos (by omega : -((ds.length : Int)) < 0)]
          have hna : (-((ds.length : Int))).natAbs = ds.length := by omega
          rw [hna, h1.1]
          exact congrArg _ hds
        · exact absurd h (by simp)
    · exact absurd h (by simp)

/-- C8: for every signed row key `k`, decoding the marker produced by
encoding `k` yields `k` again; decoding any token outside the image of
the encoder fails (so a malformed marker is rejected, and `ListPipeline`
reports `InvalidMarker` for it); and an empty marker is never decoded —
the listing runs from row-key position zero. -/
theorem marker_roundtrip_and_empty_marker :
    (∀ k : Int, decryptPk (encryptPk k) = .ok k) ∧
    (∀ (s : List Nat) (k : Int), decryptPk s = .ok k → s = encryptPk k) ∧
    (∀ env ctx marker maxKeys userFilter nameFilter, marker ≠ [] →
      decryptPk marker = .error () →
      (ListPipeline env ctx marker maxKeys userFilter nameFilter).ctx.errorCode
          = .invalidMarker ∧
      (ListPipeline env ctx marker maxKeys userFilter nameFilter).err.isSome) ∧
    (∀ env ctx maxKeys userFilter nameFilter,
      ListPipeline env ctx [] maxKeys userFilter nameFilter
        = listPipelineWithPk env ctx 0 maxKeys userFilter nameFilter) := by
  refine ⟨decryptPk_encryptPk, decryptPk_ok_imp, ?_, ?_⟩
  · intro env ctx marker maxKeys userFilter nameFilter hne hbad
    unfold ListPipeline decodeMarker
    rw [if_neg hne, hbad]
    exact ⟨rfl, rfl⟩
  · intro env ctx maxKeys userFilter nameFilter
    unfold ListPipeline decodeMarker
    rw [if_pos rfl]

/-- Witness for C8 at concrete inputs. -/
theorem marker_roundtrip_and_empty_marker_witness :
    decryptPk (encryptPk 5) = .ok 5 ∧
    encryptPk 2 = encryptPk 2 ∧
    (ListPipeline envA ctxAlice [9] 10 [] []).ctx.errorCode = .invalidMarker := by
  refine ⟨marker_roundtrip_and_empty_marker.1 5, ?_, ?_⟩
  · exact (marker_roundtrip_and_empty_marker.2.1 (encryptPk 2) 2
      (marker_roundtrip_and_empty_marker.1 2)).symm
  · exact (marker_roundtrip_and_empty_marker.2.2.1 envA ctxAlice [9] 10 [] []
      (by decide) (by rfl)).1

/-- C2: an authorized `DeletePipelineVersion` call targeting the sole
remaining version of a definition (version count equals 1) fails with
`ActionNotAllowed` and performs no store mutation, so a definition
never loses its last version through version deletion. -/
theorem delete_last_version_guard (env : Env) (ctx : RequestContext)
    (pipelineID pipelineVersionID : String) (ppl : Pipeline) (ver : PipelineVersion)
    (hauth : CheckPipelineVersionPermission env ctx.userName pipelineID pipelineVersionID
      = (true, ppl, ver, none))
    (hcount : env.countPipelineVersion pipelineID = .ok 1) :
    (DeletePipelineVersion env ctx pipelineID pipelineVersionID).ctx.errorCode
        = .actionNotAllowed ∧
    (DeletePipelineVersion env ctx pipelineID pipelineVersionID).err.isSome ∧
    (DeletePipelineVersion env ctx pipelineID pipelineVersionID).effects = [] := by
  unfold DeletePipelineVersion
  rw [hauth, hcount]
  simp

/-- Witness for C2 at a concrete environment with a single version. -/
theorem delete_last_version_guard_witness :
    (DeletePipelineVersion envOneVer ctxAlice "ppl-000001" "1").ctx.errorCode
        = .actionNotAllowed ∧
    (DeletePipelineVersion envOneVer ctxAlice "ppl-000001" "1").err.isSome ∧
    (DeletePipelineVersion envOneVer ctxAlice "ppl-000001" "1").effects = [] :=
  delete_last_version_guard envOneVer ctxAlice "ppl-000001" "1" pplA verA rfl rfl

/-- C3: a `DeletePipeline` call with an active (non-final) schedule
referencing the definition, and a `DeletePipelineVersion` call with an
active schedule referencing that (definition, version) pair, fail with
`ActionNotAllowed` and mutate nothing; when no such schedule exists and
the other guards pass, the delete proceeds. -/
theorem delete_schedule_guard :
    (∀ env ctx pipelineID ppl L,
      CheckPipelinePermission env ctx.userName pipelineID = (true, ppl, none) →
      env.listSchedule [pipelineID] [] = .ok L → L ≠ [] →
      (DeletePipeline env ctx pipelineID).ctx.errorCode = .actionNotAllowed ∧
      (DeletePipeline env ctx pipelineID).err.isSome ∧
      (DeletePipeline env ctx pipelineID).effects = []) ∧
    (∀ env ctx pipelineID ppl,
      CheckPipelinePermission env ctx.userName pipelineID = (true, ppl, none) →
      env.listSchedule [pipelineID] [] = .ok [] →
      env.storeDeletePipeline pipelineID = .ok () →
      (DeletePipeline env ctx pipelineID).err = none ∧
      (DeletePipeline env ctx pipelineID).effects = [.deletePipeline pipelineID]) ∧
    (∀ env ctx pipelineID pipelineVersionID ppl ver count L,
      CheckPipelineVersionPermission env ctx.userName pipelineID pipelineVersionID
        = (true, ppl, ver, none) →
      env.countPipelineVersion pipelineID = .ok count →
      env.listSchedule [pipelineID] [pipelineVersionID] = .ok L → L ≠ [] →
      (DeletePipelineVersion env ctx pipelineID pipelineVersionID).ctx.errorCode
          = .actionNotAllowed ∧
      (DeletePipelineVersion env ctx pipelineID pipelineVersionID).err.isSome ∧
      (DeletePipelineVersion env ctx pipelineID pipelineVersionID).effects = []) ∧
    (∀ env ctx pipelineID pipelineVersionID ppl ver count,
      CheckPipelineVersionPermission env ctx.userName pipelineID pipelineVersionID
        = (true, ppl, ver, none) →
      env.countPipelineVersion pipelineID = .ok count → count ≠ 1 →
      env.listSchedule [pipelineID] [pipelineVersionID] = .ok [] →
      env.storeDeletePipelineVersion pipelineID pipelineVersionID = .ok () →
      (DeletePipelineVersion env ctx pipelineID pipelineVersionID).err = none ∧
      (DeletePipelineVersion env ctx pipelineID pipelineVersionID).effects
          = [.deletePipelineVersion pipelineID pipelineVersionID]) := by
  refine ⟨?_, ?_, ?_, ?_⟩
  · intro env ctx pipelineID ppl L hauth hsched hne
    unfold DeletePipeline
    rw [hauth, hsched]
    simp [List.length_pos, hne]
  · intro env ctx pipelineID ppl hauth hsched hdel
    unfold DeletePipeline
    rw [hauth, hsched]
    simp [hdel]
  · intro env ctx pipelineID pipelineVersionID ppl ver count L hauth hcount hsched hne
    unfold DeletePipelineVersion
    rw [hauth, hcount]
    by_cases hc : count = 1
    · simp [hc]
    · simp only [hc, if_false]
      rw [hsched]
      simp [List.length_pos, hne, hc]
  · intro env ctx pipelineID pipelineVersionID ppl ver count hauth hcount hc hsched hdel
    unfold DeletePipelineVersion
    rw [hauth, hcount]
    simp only [hc, if_false]
    rw [hsched]
    simp [hdel, hc]

/-- Witness for C3: blocked delete under an active schedule, and a
successful delete once no schedule references the definition. -/
theorem delete_schedule_guard_witness :
    ((DeletePipeline envSched ctxAlice "ppl-000001").ctx.errorCode = .actionNotAllowed ∧
     (DeletePipeline envSched ctxAlice "ppl-000001").err.isSome ∧
     (DeletePipeline envSched ctxAlice "ppl-000001").effects = []) ∧
    ((DeletePipeline envA ctxAlice "ppl-000001").err = none ∧
     (DeletePipeline envA ctxAlice "ppl-000001").effects
        = [.deletePipeline "ppl-000001"]) := by
  constructor
  · exact delete_schedule_guard.1 envSched ctxAlice "ppl-000001" pplA [schedA]
      rfl rfl (by decide)
  · exact delete_schedule_guard.2.1 envA ctxAlice "ppl-000001" pplA rfl rfl rfl

/-- Helper: with an inline payload plus a conflicting path or
filesystem name, the source resolver fails. -/
theorem getPipelineYaml_conflict (env : Env) (ctx : RequestContext)
    (request : CreatePipelineRequest) (h1 : request.yamlRaw ≠ "")
    (h2 : request.yamlPath ≠ "" ∨ request.fsName ≠ "") :
    ∃ e, getPipelineYaml env ctx request = .error e := by
  unfold getPipelineYaml
  rw [if_pos h1]
  rcases h2 with h2 | h2
  · rw [if_pos h2]
    exact ⟨_, rfl⟩
  · by_cases hp : request.yamlPath ≠ ""
    · rw [if_pos hp]
      exact ⟨_, rfl⟩
    · rw [if_neg hp, if_pos h2]
      exact ⟨_, rfl⟩

/-- Helper: when the request names a filesystem that cannot be
resolved, the source resolver fails. -/
theorem getPipelineYaml_checkFs_error (env : Env) (ctx : RequestContext)
    (request : CreatePipelineRequest) (hfs : request.fsName ≠ "")
    (hc : env.checkFsAndGetID ctx.userName request.userName request.fsName = .error ()) :
    ∃ e, getPipelineYaml env ctx request = .error e := by
  by_cases hr : request.yamlRaw ≠ ""
  · exact getPipelineYaml_conflict env ctx request hr (Or.inr hfs)
  · unfold getPipelineYaml
    rw [if_neg hr]
    unfold getPipelineYamlFromYamlPath
    by_cases hp : request.yamlPath = ""
    · simp only [hp, if_pos]
      rw [if_neg (by simpa using hfs)]
      simp only [hc]
      exact ⟨_, rfl⟩
    · simp only [hp, if_neg, if_false]
      rw [if_neg hfs]
      simp only [hc]
      exact ⟨_, rfl⟩

/-- Helper: `CreatePipeline` surfaces a source-resolution failure as
`InvalidArguments` with no store mutation. -/
theorem CreatePipeline_yaml_error (env : Env) (ctx : RequestContext)
    (request : CreatePipelineRequest) (e : String)
    (he : getPipelineYaml env ctx request = .error e) :
    (CreatePipeline env ctx request).ctx.errorCode = .invalidArguments ∧
    (CreatePipeline env ctx request).err.isSome ∧
    (CreatePipeline env ctx request).effects = [] := by
  unfold CreatePipeline
  by_cases hd : request.desc.length > maxDescLength
  · simp [hd]
  · rw [if_neg hd, he]
    simp

/-- Helper: `UpdatePipeline` surfaces a source-resolution failure as
`InvalidArguments` with no store mutation. -/
theorem UpdatePipeline_yaml_error (env : Env) (ctx : RequestContext)
    (request : CreatePipelineRequest) (pipelineID : String) (e : String)
    (he : getPipelineYaml env ctx request = .error e) :
    (UpdatePipeline env ctx request pipelineID).ctx.errorCode = .invalidArguments ∧
    (UpdatePipeline env ctx request pipelineID).err.isSome ∧
    (UpdatePipeline env ctx request pipelineID).effects = [] := by
  unfold UpdatePipeline
  by_cases hd : request.desc.length > maxDescLength
  · simp [hd]
  · rw [if_neg hd, he]
    simp

/-- C4: for create and update, a non-empty inline payload combined with
a filesystem path, or with a filesystem name, fails with
`InvalidArguments` and persists nothing; and with only a filesystem
name and an empty path, the request's path defaults to `./run.yaml`. -/
theorem source_exclusivity :
    (∀ env ctx request,
      request.yamlRaw ≠ "" → (request.yamlPath ≠ "" ∨ request.fsName ≠ "") →
      (CreatePipeline env ctx request).ctx.errorCode = .invalidArguments ∧
      (CreatePipeline env ctx request).err.isSome ∧
      (CreatePipeline env ctx request).effects = []) ∧
    (∀ env ctx request pipelineID,
      request.yamlRaw ≠ "" → (request.yamlPath ≠ "" ∨ request.fsName ≠ "") →
      (UpdatePipeline env ctx request pipelineID).ctx.errorCode = .invalidArguments ∧
      (UpdatePipeline env ctx request pipelineID).err.isSome ∧
      (UpdatePipeline env ctx request pipelineID).effects = []) ∧
    (∀ env ctx request yaml request₂,
      request.yamlRaw = "" → request.yamlPath = "" →
      getPipelineYaml env ctx request = .ok (yaml, request₂) →
      request₂.yamlPath = "./run.yaml") := by
  refine ⟨?_, ?_, ?_⟩
  · intro env ctx request h1 h2
    obtain ⟨e, he⟩ := getPipelineYaml_conflict env ctx request h1 h2
    exact CreatePipeline_yaml_error env ctx request e he
  · intro env ctx request pipelineID h1 h2
    obtain ⟨e, he⟩ := getPipelineYaml_conflict env ctx request h1 h2
    exact UpdatePipeline_yaml_error env ctx request pipelineID e he
  · intro env ctx request yaml request₂ hr hp h
    unfold getPipelineYaml at h
    rw [if_neg (by simp [hr])] at h
    unfold getPipelineYamlFromYamlPath at h
    simp only [hp, if_pos] at h
    split at h
    · exact absurd h (by simp)
    · split at h
      · exact absurd h (by simp)
      · split at h
        · exact absurd h (by simp)
        · rw [Except.ok.injEq, Prod.mk.injEq] at h
          rw [← h.2]

/-- Witness for C4 at concrete conflicting requests. -/
theorem source_exclusivity_witness :
    ((CreatePipeline envA ctxAlice
        { yamlRaw := "name_demo", fsName := "fs1" }).ctx.errorCode
      = .invalidArguments ∧
     (CreatePipeline envA ctxAlice
        { yamlRaw := "name_demo", fsName := "fs1" }).err.isSome ∧
     (CreatePipeline envA ctxAlice
        { yamlRaw := "name_demo", fsName := "fs1" }).effects = []) ∧
    (∀ yaml request₂,
      getPipelineYaml envA ctxAlice { fsName := "fs1" } = .ok (yaml, request₂) →
      request₂.yamlPath = "./run.yaml") := by
  constructor
  · exact source_exclusivity.1 envA ctxAlice
      { yamlRaw := "name_demo", fsName := "fs1" } (by decide) (Or.inr (by decide))
  · intro yaml request₂ h
    exact source_exclusivity.2.2 envA ctxAlice { fsName := "fs1" } yaml request₂
      rfl rfl h

/-- C9: when the request names a filesystem whose resolution to an id
fails, create and update return an error and persist no definition or
version row. -/
theorem fs_resolution_failure (env : Env) (ctx : RequestContext)
    (request : CreatePipelineRequest) (pipelineID : String)
    (hfs : request.fsName ≠ "")
    (hc : env.checkFsAndGetID ctx.userName request.userName request.fsName = .error ()) :
    (CreatePipeline env ctx request).err.isSome ∧
    (CreatePipeline env ctx request).effects = [] ∧
    (UpdatePipeline env ctx request pipelineID).err.isSome ∧
    (UpdatePipeline env ctx request pipelineID).effects = [] := by
  obtain ⟨e, he⟩ := getPipelineYaml_checkFs_error env ctx request hfs hc
  obtain ⟨_, hce, hcf⟩ := CreatePipeline_yaml_error env ctx request e he
  obtain ⟨_, hue, huf⟩ := UpdatePipeline_yaml_error env ctx request pipelineID e he
  exact ⟨hce, hcf, hue, huf⟩

/-- Witness for C9 at a concrete environment whose filesystem lookup
fails. -/
theorem fs_resolution_failure_witness :
    (CreatePipeline envNoFs ctxAlice { fsName := "fs1" }).err.isSome ∧
    (CreatePipeline envNoFs ctxAlice { fsName := "fs1" }).effects = [] ∧
    (UpdatePipeline envNoFs ctxAlice { fsName := "fs1" } "ppl-000001").err.isSome ∧
    (UpdatePipeline envNoFs ctxAlice { fsName := "fs1" } "ppl-000001").effects = [] :=
  fs_resolution_failure envNoFs ctxAlice { fsName := "fs1" } "ppl-000001"
    (by decide) rfl

/-- C5: once the payload validates to a canonical name, an existing
definition with that name and owner fails the create with
`DuplicatedName`; a lookup failure other than not-found fails with
`InternalError`; only a not-found lookup lets the create reach the
store write (which then either records the create or fails as
`InternalError`). -/
theorem create_duplicate_name_check (env : Env) (ctx : RequestContext)
    (request : CreatePipelineRequest) (yaml : String)
    (request₂ : CreatePipelineRequest) (pplName : String)
    (hd : ¬request.desc.length > maxDescLength)
    (hy : getPipelineYaml env ctx request = .ok (yaml, request₂))
    (hv : env.validateWorkflow yaml ctx.userName request₂.userName = .ok pplName) :
    (∀ p, env.getPipeline pplName ctx.userName = .ok p →
      (CreatePipeline env ctx request).ctx.errorCode = .duplicatedName ∧
      (CreatePipeline env ctx request).err.isSome ∧
      (CreatePipeline env ctx request).effects = []) ∧
    (env.getPipeline pplName ctx.userName = .error .otherErr →
      (CreatePipeline env ctx request).ctx.errorCode = .internalError ∧
      (CreatePipeline env ctx request).err.isSome ∧
      (CreatePipeline env ctx request).effects = []) ∧
    (env.getPipeline pplName ctx.userName = .error .notFound →
      CreatePipeline env ctx request
        = createPipelinePersist env ctx request₂ yaml pplName) := by
  refine ⟨?_, ?_, ?_⟩
  · intro p hp
    simp [CreatePipeline, hd, hy, hv, hp]
  · intro hl
    simp [CreatePipeline, hd, hy, hv, hl]
  · intro hnf
    simp [CreatePipeline, hd, hy, hv, hnf]

/-- Witness for C5: in a store with no same-named definition, the
create proceeds to the persist stage. -/
theorem create_duplicate_name_check_witness :
    CreatePipeline envA ctxAlice reqInline
      = createPipelinePersist envA ctxAlice reqInline "name_demo" "demo" :=
  (create_duplicate_name_check envA ctxAlice reqInline "name_demo" reqInline "demo"
    (by decide) rfl rfl).2.2 rfl

/-- C6 counterexample: when the transactional store create loses the
(owner, name) uniqueness race, `CreatePipeline` reports
`InternalError`, not `DuplicatedName`. -/
theorem create_race_counterexample :
    (CreatePipeline envDupRace ctxAlice reqInline).ctx.errorCode = .internalError ∧
    ¬(CreatePipeline envDupRace ctxAlice reqInline).ctx.errorCode = .duplicatedName := by
  exact ⟨rfl, by decide⟩

/-- C6 amended: a store-level create failure caused by the uniqueness
constraint on (owner, name) is mapped to `InternalError` (every
store-create failure is), and nothing is persisted. -/
theorem create_race_internal_error (env : Env) (ctx : RequestContext)
    (request : CreatePipelineRequest) (yaml : String)
    (request₂ : CreatePipelineRequest) (pplName : String)
    (hd : ¬request.desc.length > maxDescLength)
    (hy : getPipelineYaml env ctx request = .ok (yaml, request₂))
    (hv : env.validateWorkflow yaml ctx.userName request₂.userName = .ok pplName)
    (hnf : env.getPipeline pplName ctx.userName = .error .notFound)
    (hrace : ∀ p v, env.storeCreatePipeline p v = .error .uniquenessViolation) :
    (CreatePipeline env ctx request).ctx.errorCode = .internalError ∧
    (CreatePipeline env ctx request).err.isSome ∧
    (CreatePipeline env ctx request).effects = [] := by
  have hstage : CreatePipeline env ctx request
      = createPipelinePersist env ctx request₂ yaml pplName := by
    simp [CreatePipeline, hd, hy, hv, hnf]
  rw [hstage]
  unfold createPipelinePersist
  by_cases hfs : request₂.fsName = ""
  · simp [hfs, hrace]
  · cases hcf : env.checkFsAndGetID ctx.userName request₂.userName request₂.fsName with
    | error u => simp [hfs, hcf, hrace]
    | ok fsID => simp [hfs, hcf, hrace]

/-- Witness for the amended C6 at a concrete racing store. -/
theorem create_race_internal_error_witness :
    (CreatePipeline envDupRace ctxAlice reqInline).ctx.errorCode = .internalError ∧
    (CreatePipeline envDupRace ctxAlice reqInline).err.isSome ∧
    (CreatePipeline envDupRace ctxAlice reqInline).effects = [] :=
  create_race_internal_error envDupRace ctxAlice reqInline "name_demo" reqInline "demo"
    (by decide) rfl rfl rfl (fun _ _ => rfl)

/-- C7 counterexample: with a store whose id lookup reports not-found,
`DeletePipeline` surfaces `InternalError` (the permission check folds
the not-found error into a generic error), contradicting the claim that
a not-found lookup is never surfaced as `InternalError`. -/
theorem notfound_internal_error_counterexample :
    envNoPpl.getPipelineByID "ppl-000001" = .error .notFound ∧
    (DeletePipeline envNoPpl ctxAlice "ppl-000001").ctx.errorCode = .internalError ∧
    (DeletePipeline envNoPpl ctxAlice "ppl-000001").err.isSome :=
  ⟨rfl, rfl, rfl⟩

/-- C7 amended: `GetPipeline` and `UpdatePipeline` surface a not-found
id lookup as `InvalidArguments`; but `DeletePipeline`,
`DeletePipelineVersion` and `GetPipelineVersion` surface it as
`InternalError`, because `CheckPipelinePermission` folds the store's
not-found error into a plain error that their callers map to
`InternalError`. -/
theorem notfound_mapping_amended :
    (∀ env ctx pipelineID marker maxKeys fsFilter,
      env.getPipelineByID pipelineID = .error .notFound →
      (GetPipeline env ctx pipelineID marker maxKeys fsFilter).ctx.errorCode
          = .invalidArguments) ∧
    (∀ env ctx request pipelineID yaml request₂ pplName,
      ¬request.desc.length > maxDescLength →
      getPipelineYaml env ctx request = .ok (yaml, request₂) →
      env.validateWorkflow yaml ctx.userName request₂.userName = .ok pplName →
      env.getPipelineByID pipelineID = .error .notFound →
      (UpdatePipeline env ctx request pipelineID).ctx.errorCode = .invalidArguments ∧
      (UpdatePipeline env ctx request pipelineID).effects = []) ∧
    (∀ env ctx pipelineID,
      env.getPipelineByID pipelineID = .error .notFound →
      (DeletePipeline env ctx pipelineID).ctx.errorCode = .internalError ∧
      (DeletePipeline env ctx pipelineID).effects = []) ∧
    (∀ env ctx pipelineID pipelineVersionID,
      env.getPipelineByID pipelineID = .error .notFound →
      (DeletePipelineVersion env ctx pipelineID pipelineVersionID).ctx.errorCode
          = .internalError ∧
      (DeletePipelineVersion env ctx pipelineID pipelineVersionID).effects = []) ∧
    (∀ env ctx pipelineID pipelineVersionID,
      env.getPipelineByID pipelineID = .error .notFound →
      (GetPipelineVersion env ctx pipelineID pipelineVersionID).ctx.errorCode
          = .internalError) := by
  refine ⟨?_, ?_, ?_, ?_, ?_⟩
  · intro env ctx pipelineID marker maxKeys fsFilter h
    simp [GetPipeline, h]
  · intro env ctx request pipelineID yaml request₂ pplName hd hy hv h
    simp [UpdatePipeline, hd, hy, hv, CheckPipelinePermission, h]
  · intro env ctx pipelineID h
    simp [DeletePipeline, CheckPipelinePermission, h]
  · intro env ctx pipelineID pipelineVersionID h
    simp [DeletePipelineVersion, CheckPipelineVersionPermission, CheckPipelinePermission, h]
  · intro env ctx pipelineID pipelineVersionID h
    simp [GetPipelineVersion, CheckPipelineVersionPermission, CheckPipelinePermission, h]

/-- Witness for the amended C7 at a concrete not-found store. -/
theorem notfound_mapping_amended_witness :
    ((GetPipeline envNoPpl ctxAlice "p" [] 10 []).ctx.errorCode = .invalidArguments) ∧
    ((DeletePipeline envNoPpl ctxAlice "p").ctx.errorCode = .internalError ∧
     (DeletePipeline envNoPpl ctxAlice "p").effects = []) ∧
    ((GetPipelineVersion envNoPpl ctxAlice "p" "1").ctx.errorCode = .internalError) :=
  ⟨notfound_mapping_amended.1 envNoPpl ctxAlice "p" [] 10 [] rfl,
   notfound_mapping_amended.2.2.1 envNoPpl ctxAlice "p" rfl,
   notfound_mapping_amended.2.2.2.2 envNoPpl ctxAlice "p" "1" rfl⟩

/-- C1: for every `ListPipeline` call (and the version listing of
`GetPipeline`) returning a non-empty page, the page is marked truncated
with a next marker encoding the last returned row key exactly when the
store's is-last-key query says that key is not the last one satisfying
the same filter set; when it is the last key, no marker is emitted and
the page is not truncated — independently of the page size. -/
theorem pagination_exact_truncation :
    (∀ env ctx marker pk maxKeys userFilter nameFilter pipelineList isLastPk,
      decodeMarker marker = .ok pk →
      (env.isRootUser ctx.userName = true ∨ userFilter = []) →
      env.listPipeline pk maxKeys
          (if env.isRootUser ctx.userName then userFilter else [ctx.userName]) nameFilter
        = .ok pipelineList →
      pipelineList ≠ [] →
      env.isLastPipelinePk (pipelineList.getLastD {}).pk
          (if env.isRootUser ctx.userName then userFilter else [ctx.userName]) nameFilter
        = .ok isLastPk →
      (ListPipeline env ctx marker maxKeys userFilter nameFilter).err = none ∧
      (ListPipeline env ctx marker maxKeys userFilter nameFilter).resp.markerInfo.isTruncated
          = !isLastPk ∧
      (ListPipeline env ctx marker maxKeys userFilter nameFilter).resp.markerInfo.nextMarker
          = (if isLastPk then [] else encryptPk (pipelineList.getLastD {}).pk)) ∧
    (∀ env ctx pipelineID ppl marker pk maxKeys fsFilter versionList isLastPk,
      env.getPipelineByID pipelineID = .ok ppl →
      (env.isRootUser ctx.userName = true ∨ ctx.userName = ppl.userName) →
      decodeMarker marker = .ok pk →
      env.listPipelineVersion pipelineID pk maxKeys fsFilter = .ok versionList →
      versionList ≠ [] →
      env.isLastPipelineVersionPk pipelineID (versionList.getLastD {}).pk fsFilter
        = .ok isLastPk →
      (GetPipeline env ctx pipelineID marker maxKeys fsFilter).err = none ∧
      (GetPipeline env ctx pipelineID marker maxKeys
          fsFilter).resp.pipelineVersions.markerInfo.isTruncated = !isLastPk ∧
      (GetPipeline env ctx pipelineID marker maxKeys
          fsFilter).resp.pipelineVersions.markerInfo.nextMarker
        = (if isLastPk then [] else encryptPk (versionList.getLastD {}).pk)) := by
  constructor
  · intro env ctx marker pk maxKeys userFilter nameFilter pipelineList isLastPk
      hdec hroot hl hne hlast
    simp only [ListPipeline, hdec]
    simp only [List.getLastD_eq_getLast?] at hlast
    by_cases hr : env.isRootUser ctx.userName = true
    · simp only [hr, if_true] at hl hlast
      cases isLastPk <;>
        simp [listPipelineWithPk, hr, hl, hne, hlast]
    · rcases hroot with h | h
      · exact absurd h hr
      · subst h
        simp only [Bool.not_eq_true] at hr
        simp only [hr, if_false, Bool.false_eq_true] at hl hlast
        cases isLastPk <;>
          simp [listPipelineWithPk, hr, hl, hne, hlast]
  · intro env ctx pipelineID ppl marker pk maxKeys fsFilter versionList isLastPk
      hget hauth hdec hl hne hlast
    have hcond : ¬(¬env.isRootUser ctx.userName = true ∧ ctx.userName ≠ ppl.userName) := by
      rcases hauth with h | h
      · simp [h]
      · simp [h]
    simp only [GetPipeline, hget]
    rw [if_neg (by simpa using hcond)]
    simp only [hdec]
    simp only [List.getLastD_eq_getLast?] at hlast
    cases isLastPk <;>
      simp [getPipelineVersionsPage, hl, hne, hlast]

/-- Witness for C1: a non-empty page whose last key is not the last
matching key yields a truncated page carrying the encoded key; with the
benign store the same page is final and carries no marker. -/
theorem pagination_exact_truncation_witness :
    ((ListPipeline envMore ctxAlice [] 1 [] []).err = none ∧
     (ListPipeline envMore ctxAlice [] 1 [] []).resp.markerInfo.isTruncated = !false ∧
     (ListPipeline envMore ctxAlice [] 1 [] []).resp.markerInfo.nextMarker
        = (if false then [] else encryptPk (([pplA].getLastD {}).pk))) ∧
    ((ListPipeline envA ctxAlice [] 10 [] []).err = none ∧
     (ListPipeline envA ctxAlice [] 10 [] []).resp.markerInfo.isTruncated = !true ∧
     (ListPipeline envA ctxAlice [] 10 [] []).resp.markerInfo.nextMarker
        = (if true then [] else encryptPk (([pplA].getLastD {}).pk))) :=
  ⟨pagination_exact_truncation.1 envMore ctxAlice [] 0 1 [] [] [pplA] false
      rfl (Or.inr rfl) rfl (by decide) rfl,
   pagination_exact_truncation.1 envA ctxAlice [] 0 10 [] [] [pplA] true
      rfl (Or.inr rfl) rfl (by decide) rfl⟩

/-- C10: whenever an operation returns an error, its response value is
the empty zero-valued response — no partial items, marker or identifier
accompanies an error. -/
theorem error_implies_empty_response :
    (∀ env ctx request, (CreatePipeline env ctx request).err.isSome →
      (CreatePipeline env ctx request).resp = {}) ∧
    (∀ env ctx request pipelineID, (UpdatePipeline env ctx request pipelineID).err.isSome →
      (UpdatePipeline env ctx request pipelineID).resp = {}) ∧
    (∀ env ctx marker maxKeys userFilter nameFilter,
      (ListPipeline env ctx marker maxKeys userFilter nameFilter).err.isSome →
      (ListPipeline env ctx marker maxKeys userFilter nameFilter).resp = {}) ∧
    (∀ env ctx pipelineID marker maxKeys fsFilter,
      (GetPipeline env ctx pipelineID marker maxKeys fsFilter).err.isSome →
      (GetPipeline env ctx pipelineID marker maxKeys fsFilter).resp = {}) ∧
    (∀ env ctx pipelineID pipelineVersionID,
      (GetPipelineVersion env ctx pipelineID pipelineVersionID).err.isSome →
      (GetPipelineVersion env ctx pipelineID pipelineVersionID).resp = {}) := by
  refine ⟨?_, ?_, ?_, ?_, ?_⟩
  · intro env ctx request
    simp only [CreatePipeline, createPipelinePersist]
    repeat' split
    all_goals intro h
    all_goals first
      | rfl
      | simp_all
  · intro env ctx request pipelineID
    simp only [UpdatePipeline, updatePipelinePersist]
    repeat' split
    all_goals intro h
    all_goals first
      | rfl
      | simp_all
  · intro env ctx marker maxKeys userFilter nameFilter
    simp only [ListPipeline, listPipelineWithPk]
    repeat' split
    all_goals intro h
    all_goals first
      | rfl
      | simp_all
  · intro env ctx pipelineID marker maxKeys fsFilter
    simp only [GetPipeline, getPipelineVersionsPage]
    repeat' split
    all_goals intro h
    all_goals first
      | rfl
      | simp_all
  · intro env ctx pipelineID pipelineVersionID
    simp only [GetPipelineVersion]
    repeat' split
    all_goals intro h
    all_goals first
      | rfl
      | simp_all

/-- Witness for C10: a request with conflicting sources errors and
returns the zero-valued create response. -/
theorem error_implies_empty_response_witness :
    (CreatePipeline envA ctxAlice { yamlRaw := "x", fsName := "fs1" }).resp = {} :=
  error_implies_empty_response.1 envA ctxAlice { yamlRaw := "x", fsName := "fs1" } rfl

end PaddleFlow
